import Mathlib

set_option linter.unusedVariables false

/-!
Shallow embedding of the beatmaps-service mirror and authenticated API
client code (src/app/adapters/osu_api_v2.py,
src/app/adapters/beatmap_mirrors/mino.py,
src/app/adapters/osu_mirrors/backends/ripple.py).

Pure control flow is translated directly; the HTTP transport, JSON parsing
and pydantic model validation are abstracted as explicit outcome data so
that every observable behaviour of each source function (returned value,
raised exception, emitted log payload, outgoing request parameters) is a
value of an inductive type.
-/

/-- httpx raise_for_status raises for every response whose status is not a
2xx success status; this predicate is true exactly on the 2xx range. -/
def is_success (status : Nat) : Bool :=
  200 ≤ status && status ≤ 299

/-- Result of calling response.json in the source: parsing may raise on an
invalid body, return the JSON literal null (Python None), or return parsed
payload data of type α. -/
inductive JsonResult (α : Type) where
  | raises : JsonResult α
  | null : JsonResult α
  | ok : α → JsonResult α
deriving DecidableEq

/-- Outcome of one HTTP GET issued through the osu api v2 client: either
the transport raises an exception, or a response arrives carrying a status
code and a body. -/
inductive HttpOutcome (α : Type) where
  | transportError : HttpOutcome α
  | response : Nat → JsonResult α → HttpOutcome α
deriving DecidableEq

/-- Observable behaviour of the typed fetch operations of the API client:
the function either returns a value, or raises after logging the value of
the local variable osu_api_response_data captured at exception time. -/
inductive FetchOutcome (α β : Type) where
  | returns : Option β → FetchOutcome α β
  | raisesAfterLog : Option α → FetchOutcome α β
deriving DecidableEq

/-- The request path issued by a typed fetch operation together with its
observable result. -/
structure ApiCallTrace (α β : Type) where
  request_path : String
  result : FetchOutcome α β

/-- Translation of get_beatmap from src/app/adapters/osu_api_v2.py.
The pydantic validation BeatmapExtended(**data) is abstracted as the
oracle validate, which returns none exactly when validation raises. The
source returns None on upstream 404 before raise_for_status, re-raises
every other failure after logging osu_api_response_data, and otherwise
returns the validated record. -/
def get_beatmap {α β : Type} (validate : α → Option β) (beatmap_id : Int)
    (outcome : HttpOutcome α) : ApiCallTrace α β :=
  { request_path := "beatmaps/" ++ toString beatmap_id
    result :=
      match outcome with
      | .transportError => .raisesAfterLog none
      | .response status body =>
        if status = 404 then .returns none
        else if is_success status then
          match body with
          | .raises => .raisesAfterLog none
          | .null => .raisesAfterLog none
          | .ok d =>
            match validate d with
            | none => .raisesAfterLog (some d)
            | some v => .returns (some v)
        else .raisesAfterLog none }

/-- Translation of get_beatmapset from src/app/adapters/osu_api_v2.py;
identical control flow to get_beatmap against the beatmapsets endpoint,
with BeatmapsetExtended validation abstracted as the oracle validate. -/
def get_beatmapset {α β : Type} (validate : α → Option β) (beatmapset_id : Int)
    (outcome : HttpOutcome α) : ApiCallTrace α β :=
  { request_path := "beatmapsets/" ++ toString beatmapset_id
    result :=
      match outcome with
      | .transportError => .raisesAfterLog none
      | .response status body =>
        if status = 404 then .returns none
        else if is_success status then
          match body with
          | .raises => .raisesAfterLog none
          | .null => .raisesAfterLog none
          | .ok d =>
            match validate d with
            | none => .raisesAfterLog (some d)
            | some v => .returns (some v)
        else .raisesAfterLog none }

/-- Modelled from the spec: RankedStatus lives in app/common_models, which
is not under src/; its members are the seven values referenced by the
mapping dict of SearchLegacyRankedStatus.from_osu_api_status in
src/app/adapters/osu_api_v2.py. -/
inductive RankedStatus where
  | NOT_SUBMITTED : RankedStatus
  | PENDING : RankedStatus
  | UPDATE_AVAILABLE : RankedStatus
  | RANKED : RankedStatus
  | APPROVED : RankedStatus
  | QUALIFIED : RankedStatus
  | LOVED : RankedStatus
deriving DecidableEq, Fintype

/-- Modelled from the spec: GameMode lives in app/common_models, which is
not under src/; the spec constrains mode to the closed set of the four
rulesets. Search passes the value through opaquely. -/
inductive GameMode where
  | osu : GameMode
  | taiko : GameMode
  | fruits : GameMode
  | mania : GameMode
deriving DecidableEq

/-- Translation of the SearchLegacyRankedStatus IntEnum of
src/app/adapters/osu_api_v2.py. -/
inductive SearchLegacyRankedStatus where
  | RANKED : SearchLegacyRankedStatus
  | FAVOURITES : SearchLegacyRankedStatus
  | QUALIFIED : SearchLegacyRankedStatus
  | PENDING : SearchLegacyRankedStatus
  | GRAVEYARD : SearchLegacyRankedStatus
  | MINE : SearchLegacyRankedStatus
  | ANY : SearchLegacyRankedStatus
  | LOVED : SearchLegacyRankedStatus
deriving DecidableEq, Fintype

/-- The integer value of each SearchLegacyRankedStatus member, exactly as
declared in the source IntEnum. -/
def SearchLegacyRankedStatus.toInt : SearchLegacyRankedStatus → Int
  | .RANKED => 0
  | .FAVOURITES => 2
  | .QUALIFIED => 3
  | .PENDING => 4
  | .GRAVEYARD => 5
  | .MINE => 6
  | .ANY => 7
  | .LOVED => 8

/-- Translation of SearchLegacyRankedStatus.from_osu_api_status: a dict
literal keyed by the seven RankedStatus members, looked up with .get, so a
key mapped to Python None and a missing key both yield none. -/
def SearchLegacyRankedStatus.from_osu_api_status :
    RankedStatus → Option SearchLegacyRankedStatus
  | .NOT_SUBMITTED => none
  | .PENDING => some .PENDING
  | .UPDATE_AVAILABLE => none
  | .RANKED => some .RANKED
  | .APPROVED => some .RANKED
  | .QUALIFIED => some .QUALIFIED
  | .LOVED => some .LOVED

/-- The query parameters that search_beatmapsets places on the outgoing
request, mirroring the params dict of the source. -/
structure SearchRequestParams where
  q : String
  m : GameMode
  r : SearchLegacyRankedStatus
  page : Int
  limit : Int
  cursor_string : Option String
deriving DecidableEq

/-- The outgoing request parameters of one search_beatmapsets call
together with its observable result. -/
structure SearchCallTrace (α β : Type) where
  request_params : SearchRequestParams
  result : FetchOutcome α β

/-- Translation of search_beatmapsets from src/app/adapters/osu_api_v2.py:
the params dict is built verbatim from the arguments, the response goes
through raise_for_status with no 404 special case, and every exception is
re-raised after logging osu_api_response_data. BeatmapsetSearchResponse
validation is abstracted as the oracle validate. -/
def search_beatmapsets {α β : Type} (validate : α → Option β) (query : String)
    (ranked_status : SearchLegacyRankedStatus) (mode : GameMode)
    (page : Int) (page_size : Int) (cursor_string : Option String)
    (outcome : HttpOutcome α) : SearchCallTrace α β :=
  { request_params :=
      { q := query
        m := mode
        r := ranked_status
        page := page
        limit := page_size
        cursor_string := cursor_string }
    result :=
      match outcome with
      | .transportError => .raisesAfterLog none
      | .response status body =>
        if is_success status then
          match body with
          | .raises => .raisesAfterLog none
          | .null => .raisesAfterLog none
          | .ok d =>
            match validate d with
            | none => .raisesAfterLog (some d)
            | some v => .returns (some v)
        else .raisesAfterLog none }

/-- A UTC wall-clock instant carrying the datetime fields touched by
log_osu_api_response. -/
structure UtcTime where
  year : Nat
  month : Nat
  day : Nat
  hour : Nat
  minute : Nat
  second : Nat
  microsecond : Nat
deriving DecidableEq

/-- The token-exchange endpoint constant of src/app/adapters/osu_api_v2.py. -/
def OSU_API_V2_TOKEN_ENDPOINT : String := "https://osu.ppy.sh/oauth/token"

/-- The parts of an httpx response read by log_osu_api_response: the
request URL, the status code, and the two rate-limit headers (absent
headers are none). -/
structure ApiHttpResponse where
  request_url : String
  status_code : Nat
  ratelimit_remaining : Option String
  ratelimit_limit : Option String
deriving DecidableEq

/-- The structured rate-limit log entry emitted by log_osu_api_response. -/
structure RateLimitLogEntry where
  request_url : String
  remaining : Option String
  limit : Option String
  reset_utc : UtcTime
deriving DecidableEq

/-- Translation of log_osu_api_response from
src/app/adapters/osu_api_v2.py: it returns early, emitting nothing, when
the request URL is the token endpoint or the status is 401; otherwise it
emits one log entry whose reset timestamp is the current UTC time with
second and microsecond replaced by zero. The ambient current time is the
explicit argument now. -/
def log_osu_api_response (now : UtcTime) (response : ApiHttpResponse) :
    Option RateLimitLogEntry :=
  if response.request_url = OSU_API_V2_TOKEN_ENDPOINT ∨ response.status_code = 401 then
    none
  else
    some
      { request_url := response.request_url
        remaining := response.ratelimit_remaining
        limit := response.ratelimit_limit
        reset_utc := { now with second := 0, microsecond := 0 } }

/-- Outcome of the HTTP GET a mirror backend issues: the transport may
raise, or a response arrives with a status code and a body; reading the
body may itself raise, modelled as none. -/
inductive MirrorHttpOutcome where
  | transportError : MirrorHttpOutcome
  | response : Nat → Option (List Nat) → MirrorHttpOutcome
deriving DecidableEq

/-- Observable behaviour of fetch_beatmap_zip_data: return the bytes,
return Python None, or raise MirrorRequestError to the caller. -/
inductive MirrorFetchResult where
  | value : Option (List Nat) → MirrorFetchResult
  | raisesMirrorRequestError : MirrorFetchResult
deriving DecidableEq

/-- The request URL of one mirror fetch together with its observable
result. -/
structure MirrorCallTrace where
  request_url : String
  result : MirrorFetchResult
deriving DecidableEq

/-- Translation of MinoMirror.fetch_beatmap_zip_data from
src/app/adapters/beatmap_mirrors/mino.py: the whole body sits in a
try/except Exception handler that returns None, so raise_for_status on any
non-2xx status (404 included), a transport failure, or a failing body read
all yield None; only a 2xx response with a readable body returns bytes. -/
def MinoMirror.fetch_beatmap_zip_data (beatmapset_id : Int)
    (outcome : MirrorHttpOutcome) : MirrorCallTrace :=
  { request_url := "https://catboy.best/d/" ++ toString beatmapset_id
    result :=
      match outcome with
      | .transportError => .value none
      | .response status body =>
        if is_success status then
          match body with
          | none => .value none
          | some bs => .value (some bs)
        else .value none }

/-- Translation of RippleMirror.fetch_beatmap_zip_data from
src/app/adapters/osu_mirrors/backends/ripple.py: a 404 status returns None
before raise_for_status; any other failure (non-2xx status, transport
failure, failing body read) is caught and re-raised as MirrorRequestError;
a 2xx response with a readable body returns the bytes. -/
def RippleMirror.fetch_beatmap_zip_data (beatmapset_id : Int)
    (outcome : MirrorHttpOutcome) : MirrorCallTrace :=
  { request_url := "https://storage.ripple.moe/d/" ++ toString beatmapset_id
    result :=
      match outcome with
      | .transportError => .raisesMirrorRequestError
      | .response status body =>
        if status = 404 then .value none
        else if is_success status then
          match body with
          | none => .raisesMirrorRequestError
          | some bs => .value (some bs)
        else .raisesMirrorRequestError }

/-- C3: for both mirror backends, an HTTP 404 response makes
fetch_beatmap_zip_data return None to the caller rather than raising,
whatever the body read would have produced. -/
theorem mirrors_return_none_on_404 (beatmapset_id : Int)
    (body : Option (List Nat)) :
    (MinoMirror.fetch_beatmap_zip_data beatmapset_id
        (.response 404 body)).result = .value none ∧
    (RippleMirror.fetch_beatmap_zip_data beatmapset_id
        (.response 404 body)).result = .value none := by
  constructor <;>
    simp [MinoMirror.fetch_beatmap_zip_data, RippleMirror.fetch_beatmap_zip_data,
      is_success]

/-- C4: the legacy ranked-status mapping is total over the internal
RankedStatus enum: every member maps either to none (no filter) or to a
legacy member whose integer value lies in the declared legacy set, and the
mapping is a pure function, returning the same result on every call. -/
theorem from_osu_api_status_total_and_stable :
    (∀ s : RankedStatus,
      SearchLegacyRankedStatus.from_osu_api_status s = none ∨
      ∃ l : SearchLegacyRankedStatus,
        SearchLegacyRankedStatus.from_osu_api_status s = some l ∧
        (l.toInt = 0 ∨ l.toInt = 2 ∨ l.toInt = 3 ∨ l.toInt = 4 ∨
         l.toInt = 5 ∨ l.toInt = 6 ∨ l.toInt = 7 ∨ l.toInt = 8)) ∧
    (∀ s : RankedStatus,
      SearchLegacyRankedStatus.from_osu_api_status s =
        SearchLegacyRankedStatus.from_osu_api_status s) := by
  constructor
  · intro s
    cases s
    · exact Or.inl rfl
    · exact Or.inr ⟨.PENDING, rfl, by decide⟩
    · exact Or.inl rfl
    · exact Or.inr ⟨.RANKED, rfl, by decide⟩
    · exact Or.inr ⟨.RANKED, rfl, by decide⟩
    · exact Or.inr ⟨.QUALIFIED, rfl, by decide⟩
    · exact Or.inr ⟨.LOVED, rfl, by decide⟩
  · intro s
    rfl

/-- C10: the range of the legacy ranked-status mapping is limited to
RANKED, PENDING, QUALIFIED, LOVED and none; both internal RANKED and
APPROVED (distinct inputs) collapse to legacy RANKED, so the mapping is
not injective; and FAVOURITES, GRAVEYARD, MINE and ANY are never
produced. -/
theorem from_osu_api_status_range :
    (∀ s : RankedStatus,
      SearchLegacyRankedStatus.from_osu_api_status s = none ∨
      SearchLegacyRankedStatus.from_osu_api_status s = some .RANKED ∨
      SearchLegacyRankedStatus.from_osu_api_status s = some .PENDING ∨
      SearchLegacyRankedStatus.from_osu_api_status s = some .QUALIFIED ∨
      SearchLegacyRankedStatus.from_osu_api_status s = some .LOVED) ∧
    SearchLegacyRankedStatus.from_osu_api_status .RANKED = some .RANKED ∧
    SearchLegacyRankedStatus.from_osu_api_status .APPROVED = some .RANKED ∧
    RankedStatus.RANKED ≠ RankedStatus.APPROVED ∧
    (∀ s : RankedStatus,
      SearchLegacyRankedStatus.from_osu_api_status s ≠ some .FAVOURITES ∧
      SearchLegacyRankedStatus.from_osu_api_status s ≠ some .GRAVEYARD ∧
      SearchLegacyRankedStatus.from_osu_api_status s ≠ some .MINE ∧
      SearchLegacyRankedStatus.from_osu_api_status s ≠ some .ANY) := by
  decide

/-- Closed instance of from_osu_api_status_range: the mapping never emits
the legacy FAVOURITES filter, checked at the NOT_SUBMITTED input. -/
theorem from_osu_api_status_range_witness :
    SearchLegacyRankedStatus.from_osu_api_status RankedStatus.NOT_SUBMITTED ≠
      some SearchLegacyRankedStatus.FAVOURITES :=
  (from_osu_api_status_range.2.2.2.2 RankedStatus.NOT_SUBMITTED).1

/-- C7: a non-null cursor_string argument of search_beatmapsets is placed
unchanged into the outgoing request parameters. -/
theorem search_cursor_string_passthrough {α β : Type} (validate : α → Option β)
    (query : String) (ranked_status : SearchLegacyRankedStatus)
    (mode : GameMode) (page : Int) (page_size : Int) (cs : String)
    (outcome : HttpOutcome α) :
    (search_beatmapsets validate query ranked_status mode page page_size
        (some cs) outcome).request_params.cursor_string = some cs :=
  rfl

/-- C5: log_osu_api_response emits a rate-limit log entry exactly when the
request URL is not the token-exchange endpoint and the status is not
401. -/
theorem rate_limit_log_emission_iff (now : UtcTime)
    (response : ApiHttpResponse) :
    (∃ e, log_osu_api_response now response = some e) ↔
      (response.request_url ≠ OSU_API_V2_TOKEN_ENDPOINT ∧
        response.status_code ≠ 401) := by
  unfold log_osu_api_response
  by_cases h : response.request_url = OSU_API_V2_TOKEN_ENDPOINT ∨
      response.status_code = 401
  · simp only [if_pos h]
    constructor
    · rintro ⟨e, he⟩
      exact absurd he (by simp)
    · rintro ⟨h1, h2⟩
      cases h with
      | inl h => exact absurd h h1
      | inr h => exact absurd h h2
  · simp only [if_neg h]
    push_neg at h
    exact ⟨fun _ => h, fun _ => ⟨_, rfl⟩⟩

/-- Closed instance of rate_limit_log_emission_iff: a 200 response to a
non-token URL produces a log entry. -/
theorem rate_limit_log_emission_iff_witness :
    ∃ e, log_osu_api_response ⟨2024, 1, 1, 0, 0, 30, 5⟩
      ⟨"https://osu.ppy.sh/api/v2/beatmaps/1", 200, none, none⟩ = some e :=
  (rate_limit_log_emission_iff ⟨2024, 1, 1, 0, 0, 30, 5⟩
      ⟨"https://osu.ppy.sh/api/v2/beatmaps/1", 200, none, none⟩).mpr
    ⟨by decide, by decide⟩

/-- C6: every emitted rate-limit log entry carries a reset timestamp equal
to the start of the current UTC minute: second and microsecond are zero
and the minute, hour and date components equal those of the current
time. -/
theorem rate_limit_reset_is_minute_start (now : UtcTime)
    (response : ApiHttpResponse) (e : RateLimitLogEntry)
    (h : log_osu_api_response now response = some e) :
    e.reset_utc.second = 0 ∧ e.reset_utc.microsecond = 0 ∧
    e.reset_utc.minute = now.minute ∧ e.reset_utc.hour = now.hour ∧
    e.reset_utc.day = now.day ∧ e.reset_utc.month = now.month ∧
    e.reset_utc.year = now.year := by
  unfold log_osu_api_response at h
  split at h
  · exact absurd h (by simp)
  · rw [Option.some_inj] at h
    subst h
    exact ⟨rfl, rfl, rfl, rfl, rfl, rfl, rfl⟩

/-- Closed instance of rate_limit_reset_is_minute_start at a concrete time
and response. -/
theorem rate_limit_reset_is_minute_start_witness :
    (⟨2024, 5, 6, 7, 8, 0, 0⟩ : UtcTime).second = 0 ∧
    (⟨2024, 5, 6, 7, 8, 0, 0⟩ : UtcTime).microsecond = 0 ∧
    (⟨2024, 5, 6, 7, 8, 0, 0⟩ : UtcTime).minute =
      (⟨2024, 5, 6, 7, 8, 9, 10⟩ : UtcTime).minute ∧
    (⟨2024, 5, 6, 7, 8, 0, 0⟩ : UtcTime).hour =
      (⟨2024, 5, 6, 7, 8, 9, 10⟩ : UtcTime).hour ∧
    (⟨2024, 5, 6, 7, 8, 0, 0⟩ : UtcTime).day =
      (⟨2024, 5, 6, 7, 8, 9, 10⟩ : UtcTime).day ∧
    (⟨2024, 5, 6, 7, 8, 0, 0⟩ : UtcTime).month =
      (⟨2024, 5, 6, 7, 8, 9, 10⟩ : UtcTime).month ∧
    (⟨2024, 5, 6, 7, 8, 0, 0⟩ : UtcTime).year =
      (⟨2024, 5, 6, 7, 8, 9, 10⟩ : UtcTime).year := by
  have h := rate_limit_reset_is_minute_start ⟨2024, 5, 6, 7, 8, 9, 10⟩
    ⟨"u", 200, none, none⟩
    ⟨"u", none, none, ⟨2024, 5, 6, 7, 8, 0, 0⟩⟩ (by decide)
  exact h

/-- C1: get_beatmap returns None exactly when the upstream status is 404;
the 404 path returns without raising and emits no payload log; every other
non-2xx status, transport failure, json-decode failure or validation
failure raises after logging the captured payload (the validated payload
when decoding reached it, otherwise None). -/
theorem get_beatmap_contract {α β : Type} (validate : α → Option β)
    (beatmap_id : Int) (outcome : HttpOutcome α) :
    ((get_beatmap validate beatmap_id outcome).result =
        FetchOutcome.returns (none : Option β) ↔
      ∃ body, outcome = .response 404 body) ∧
    (∀ body, (get_beatmap validate beatmap_id (.response 404 body)).result =
      FetchOutcome.returns (none : Option β)) ∧
    (∀ status body, status ≠ 404 → is_success status = false →
      (get_beatmap validate beatmap_id (.response status body)).result =
        FetchOutcome.raisesAfterLog (none : Option α)) ∧
    ((get_beatmap (β := β) validate beatmap_id .transportError).result =
      FetchOutcome.raisesAfterLog (none : Option α)) ∧
    (∀ status, is_success status = true →
      (get_beatmap (β := β) validate beatmap_id
          (.response status .raises)).result =
        FetchOutcome.raisesAfterLog (none : Option α)) ∧
    (∀ status d, is_success status = true → validate d = none →
      (get_beatmap (β := β) validate beatmap_id
          (.response status (.ok d))).result =
        FetchOutcome.raisesAfterLog (some d)) := by
  refine ⟨?_, ?_, ?_, rfl, ?_, ?_⟩
  · cases outcome with
    | transportError => simp [get_beatmap]
    | response status body =>
      by_cases h404 : status = 404
      · subst h404
        simp [get_beatmap]
      · by_cases hs : is_success status
        · cases body with
          | raises => simp [get_beatmap, hs, h404]
          | null => simp [get_beatmap, hs, h404]
          | ok d =>
            cases hv : validate d with
            | none => simp [get_beatmap, hs, hv, h404]
            | some v => simp [get_beatmap, hs, hv, h404]
        · simp [get_beatmap, hs, h404]
  · intro body
    simp [get_beatmap]
  · intro status body h404 hs
    simp [get_beatmap, h404, hs]
  · intro status hs
    have h404 : status ≠ 404 := by
      intro hEq
      subst hEq
      exact absurd hs (by decide)
    simp [get_beatmap, h404, hs]
  · intro status d hs hv
    have h404 : status ≠ 404 := by
      intro hEq
      subst hEq
      exact absurd hs (by decide)
    simp [get_beatmap, h404, hs, hv]

/-- Closed instance of get_beatmap_contract: a 200 response whose payload
fails model validation raises after logging that payload. -/
theorem get_beatmap_contract_witness :
    (get_beatmap (β := Nat) (fun _ : Nat => (none : Option Nat)) 42
        (.response 200 (.ok 7))).result =
      FetchOutcome.raisesAfterLog (some 7) :=
  (get_beatmap_contract (fun _ : Nat => (none : Option Nat)) 42
      (.response 200 (.ok 7))).2.2.2.2.2 200 7 (by decide) rfl

/-- C8: get_beatmapset has the same contract shape as get_beatmap: it
issues its GET against the beatmapsets endpoint for the given id, returns
None exactly on upstream 404, and raises after logging the captured
payload on every other non-2xx status, transport failure or decode
failure. -/
theorem get_beatmapset_contract {α β : Type} (validate : α → Option β)
    (beatmapset_id : Int) (outcome : HttpOutcome α) :
    ((get_beatmapset (β := β) validate beatmapset_id outcome).request_path =
      "beatmapsets/" ++ toString beatmapset_id) ∧
    ((get_beatmapset validate beatmapset_id outcome).result =
        FetchOutcome.returns (none : Option β) ↔
      ∃ body, outcome = .response 404 body) ∧
    (∀ body, (get_beatmapset validate beatmapset_id
        (.response 404 body)).result =
      FetchOutcome.returns (none : Option β)) ∧
    (∀ status body, status ≠ 404 → is_success status = false →
      (get_beatmapset validate beatmapset_id (.response status body)).result =
        FetchOutcome.raisesAfterLog (none : Option α)) ∧
    ((get_beatmapset (β := β) validate beatmapset_id .transportError).result =
      FetchOutcome.raisesAfterLog (none : Option α)) ∧
    (∀ status, is_success status = true →
      (get_beatmapset (β := β) validate beatmapset_id
          (.response status .raises)).result =
        FetchOutcome.raisesAfterLog (none : Option α)) ∧
    (∀ status d, is_success status = true → validate d = none →
      (get_beatmapset (β := β) validate beatmapset_id
          (.response status (.ok d))).result =
        FetchOutcome.raisesAfterLog (some d)) := by
  refine ⟨rfl, ?_, ?_, ?_, rfl, ?_, ?_⟩
  · cases outcome with
    | transportError => simp [get_beatmapset]
    | response status body =>
      by_cases h404 : status = 404
      · subst h404
        simp [get_beatmapset]
      · by_cases hs : is_success status
        · cases body with
          | raises => simp [get_beatmapset, hs, h404]
          | null => simp [get_beatmapset, hs, h404]
          | ok d =>
            cases hv : validate d with
            | none => simp [get_beatmapset, hs, hv, h404]
            | some v => simp [get_beatmapset, hs, hv, h404]
        · simp [get_beatmapset, hs, h404]
  · intro body
    simp [get_beatmapset]
  · intro status body h404 hs
    simp [get_beatmapset, h404, hs]
  · intro status hs
    have h404 : status ≠ 404 := by
      intro hEq
      subst hEq
      exact absurd hs (by decide)
    simp [get_beatmapset, h404, hs]
  · intro status d hs hv
    have h404 : status ≠ 404 := by
      intro hEq
      subst hEq
      exact absurd hs (by decide)
    simp [get_beatmapset, h404, hs, hv]

/-- Closed instance of get_beatmapset_contract: a 404 response makes
get_beatmapset return None. -/
theorem get_beatmapset_contract_witness :
    (get_beatmapset (fun _ : Nat => some 0) 123
        (.response 404 .null)).result =
      FetchOutcome.returns (none : Option Nat) :=
  (get_beatmapset_contract (fun _ : Nat => some 0) 123
      (.response 404 .null)).2.2.1 .null

/-- C2: search_beatmapsets never returns an absence value: every failure,
an upstream 404 included, raises after logging, and a successful return
always carries a value decoded by the response validation from a 2xx
response body. -/
theorem search_beatmapsets_contract {α β : Type} (validate : α → Option β)
    (query : String) (ranked_status : SearchLegacyRankedStatus)
    (mode : GameMode) (page : Int) (page_size : Int)
    (cursor_string : Option String) (outcome : HttpOutcome α) :
    ((search_beatmapsets validate query ranked_status mode page page_size
        cursor_string outcome).result ≠
      FetchOutcome.returns (none : Option β)) ∧
    (∀ body, (search_beatmapsets (β := β) validate query ranked_status mode
        page page_size cursor_string (.response 404 body)).result =
      FetchOutcome.raisesAfterLog (none : Option α)) ∧
    (∀ status body, is_success status = false →
      (search_beatmapsets (β := β) validate query ranked_status mode page
          page_size cursor_string (.response status body)).result =
        FetchOutcome.raisesAfterLog (none : Option α)) ∧
    (∀ v, (search_beatmapsets validate query ranked_status mode page
        page_size cursor_string outcome).result =
          FetchOutcome.returns (some v) →
      ∃ status d, outcome = .response status (.ok d) ∧
        is_success status = true ∧ validate d = some v) := by
  refine ⟨?_, ?_, ?_, ?_⟩
  · cases outcome with
    | transportError => simp [search_beatmapsets]
    | response status body =>
      by_cases hs : is_success status
      · cases body with
        | raises => simp [search_beatmapsets, hs]
        | null => simp [search_beatmapsets, hs]
        | ok d =>
          cases hv : validate d with
          | none => simp [search_beatmapsets, hs, hv]
          | some v => simp [search_beatmapsets, hs, hv]
      · simp [search_beatmapsets, hs]
  · intro body
    simp [search_beatmapsets, is_success]
  · intro status body hs
    simp [search_beatmapsets, hs]
  · intro v hv
    cases outcome with
    | transportError => simp [search_beatmapsets] at hv
    | response status body =>
      by_cases hs : is_success status
      · cases body with
        | raises => simp [search_beatmapsets, hs] at hv
        | null => simp [search_beatmapsets, hs] at hv
        | ok d =>
          cases hval : validate d with
          | none => simp [search_beatmapsets, hs, hval] at hv
          | some w =>
            simp [search_beatmapsets, hs, hval] at hv
            exact ⟨status, d, rfl, hs, by rw [hval, hv]⟩
      · simp [search_beatmapsets, hs] at hv

/-- Closed instance of search_beatmapsets_contract: a 404 response makes
the search raise after logging, with no None return. -/
theorem search_beatmapsets_contract_witness :
    (search_beatmapsets (β := Nat) (fun n : Nat => some n) "winter" .RANKED
        .osu 0 50 none (.response 404 .null)).result =
      FetchOutcome.raisesAfterLog (none : Option Nat) :=
  (search_beatmapsets_contract (fun n : Nat => some n) "winter" .RANKED
      .osu 0 50 none (.response 404 .null)).2.1 .null

/-- C9: MinoMirror.fetch_beatmap_zip_data never raises to its caller: a
transport failure, any non-2xx status (404 included) and a failing body
read all return None, and bytes are returned only for a 2xx response whose
body read yields exactly those bytes. -/
theorem mino_never_raises (beatmapset_id : Int) (outcome : MirrorHttpOutcome) :
    ((MinoMirror.fetch_beatmap_zip_data beatmapset_id outcome).result ≠
      MirrorFetchResult.raisesMirrorRequestError) ∧
    ((MinoMirror.fetch_beatmap_zip_data beatmapset_id
        .transportError).result = MirrorFetchResult.value none) ∧
    (∀ status body, is_success status = false →
      (MinoMirror.fetch_beatmap_zip_data beatmapset_id
          (.response status body)).result = MirrorFetchResult.value none) ∧
    (∀ bs, (MinoMirror.fetch_beatmap_zip_data beatmapset_id outcome).result =
        MirrorFetchResult.value (some bs) →
      ∃ status, outcome = .response status (some bs) ∧
        is_success status = true) := by
  refine ⟨?_, rfl, ?_, ?_⟩
  · cases outcome with
    | transportError => simp [MinoMirror.fetch_beatmap_zip_data]
    | response status body =>
      by_cases hs : is_success status
      · cases body with
        | none => simp [MinoMirror.fetch_beatmap_zip_data, hs]
        | some bs => simp [MinoMirror.fetch_beatmap_zip_data, hs]
      · simp [MinoMirror.fetch_beatmap_zip_data, hs]
  · intro status body hs
    simp [MinoMirror.fetch_beatmap_zip_data, hs]
  · intro bs hbs
    cases outcome with
    | transportError => simp [MinoMirror.fetch_beatmap_zip_data] at hbs
    | response status body =>
      by_cases hs : is_success status
      · cases body with
        | none => simp [MinoMirror.fetch_beatmap_zip_data, hs] at hbs
        | some cs =>
          simp [MinoMirror.fetch_beatmap_zip_data, hs] at hbs
          exact ⟨status, by rw [hbs], hs⟩
      · simp [MinoMirror.fetch_beatmap_zip_data, hs] at hbs

/-- Closed instance of mino_never_raises: a 404 from the mino mirror
returns None instead of raising. -/
theorem mino_never_raises_witness :
    (MinoMirror.fetch_beatmap_zip_data 123
        (.response 404 (some [1, 2]))).result = MirrorFetchResult.value none :=
  (mino_never_raises 123 (.response 404 (some [1, 2]))).2.2.1 404
    (some [1, 2]) (by decide)
